import Mathlib

/-!
Shallow embedding of the Leoric scene-graph loader (src/main.rs, src/model.rs,
src/renderer/settings.rs) together with the parts of the `glam` math crate the
loader uses.  `f32` values are embedded as exact rationals; machine indices as
`Nat`.  Fallible Rust functions returning `eyre::Result` are embedded as
`Except String`.
-/

namespace Leoric

/-- Embedding of glam `Vec3`: three scalar components. -/
structure Vec3 where
  x : ℚ
  y : ℚ
  z : ℚ
deriving DecidableEq

/-- Embedding of glam `Vec4`: four scalar components. -/
structure Vec4 where
  x : ℚ
  y : ℚ
  z : ℚ
  w : ℚ
deriving DecidableEq

/-- Embedding of glam `Quat` (`Quat::from_xyzw`): x, y, z imaginary parts and w real part. -/
structure Quat where
  x : ℚ
  y : ℚ
  z : ℚ
  w : ℚ
deriving DecidableEq

/-- Componentwise addition of `Vec4` (glam vector addition). -/
def Vec4.add (a b : Vec4) : Vec4 :=
  ⟨a.x + b.x, a.y + b.y, a.z + b.z, a.w + b.w⟩

/-- Scalar multiple of a `Vec4` (glam scalar-vector product). -/
def Vec4.smul (c : ℚ) (v : Vec4) : Vec4 :=
  ⟨c * v.x, c * v.y, c * v.z, c * v.w⟩

/-- Embedding of glam `Mat4`: a column-major 4×4 matrix stored as four column vectors,
named as in glam (`x_axis` .. `w_axis`). -/
structure Mat4 where
  xAxis : Vec4
  yAxis : Vec4
  zAxis : Vec4
  wAxis : Vec4
deriving DecidableEq

/-- glam matrix-vector product: the linear combination of the columns by the
components of the vector. -/
def Mat4.mulVec4 (m : Mat4) (v : Vec4) : Vec4 :=
  (Vec4.smul v.x m.xAxis).add ((Vec4.smul v.y m.yAxis).add
    ((Vec4.smul v.z m.zAxis).add (Vec4.smul v.w m.wAxis)))

/-- glam `Mat4` multiplication (`Mul<Mat4> for Mat4`): each column of the result is
the left matrix applied to the corresponding column of the right matrix. -/
def Mat4.mul (a b : Mat4) : Mat4 :=
  ⟨a.mulVec4 b.xAxis, a.mulVec4 b.yAxis, a.mulVec4 b.zAxis, a.mulVec4 b.wAxis⟩

/-- glam `Mat4::IDENTITY`. -/
def Mat4.identity : Mat4 :=
  ⟨⟨1, 0, 0, 0⟩, ⟨0, 1, 0, 0⟩, ⟨0, 0, 1, 0⟩, ⟨0, 0, 0, 1⟩⟩

/-- glam `Mat4::from_translation(t)`: identity rotation/scale block with `t` in the
translation column. -/
def Mat4.fromTranslation (t : Vec3) : Mat4 :=
  ⟨⟨1, 0, 0, 0⟩, ⟨0, 1, 0, 0⟩, ⟨0, 0, 1, 0⟩, ⟨t.x, t.y, t.z, 1⟩⟩

/-- glam `Mat4::from_scale(s)`: diagonal scale matrix. -/
def Mat4.fromScale (s : Vec3) : Mat4 :=
  ⟨⟨s.x, 0, 0, 0⟩, ⟨0, s.y, 0, 0⟩, ⟨0, 0, s.z, 0⟩, ⟨0, 0, 0, 1⟩⟩

/-- glam `Mat4::from_quat(q)`: the standard quaternion-to-rotation-matrix formula used
by glam (columns of the 3×3 rotation block, last column `(0,0,0,1)`). -/
def Mat4.fromQuat (q : Quat) : Mat4 :=
  let x2 := q.x + q.x
  let y2 := q.y + q.y
  let z2 := q.z + q.z
  let xx := q.x * x2
  let xy := q.x * y2
  let xz := q.x * z2
  let yy := q.y * y2
  let yz := q.y * z2
  let zz := q.z * z2
  let wx := q.w * x2
  let wy := q.w * y2
  let wz := q.w * z2
  ⟨⟨1 - (yy + zz), xy + wz, xz - wy, 0⟩,
   ⟨xy - wz, 1 - (xx + zz), yz + wx, 0⟩,
   ⟨xz + wy, yz - wx, 1 - (xx + yy), 0⟩,
   ⟨0, 0, 0, 1⟩⟩

/-- Embedding of `gltf::scene::Transform`: either a raw column-major matrix
(`Transform::Matrix`, read with `Mat4::from_cols_array_2d`) or a decomposed
translation/rotation/scale triple (`Transform::Decomposed`). -/
inductive GTransform where
  | matrix (m : Mat4)
  | decomposed (translation : Vec3) (rotation : Quat) (scale : Vec3)
deriving DecidableEq

/-- The local-matrix computation of `Node::from_gltf` (src/model.rs lines 131-147):
a raw matrix is taken as-is; a decomposed transform becomes
`Mat4::from_translation(t) * Mat4::from_quat(r) * Mat4::from_scale(s)`
(Rust `*` is left-associative). -/
def localTransformOfG : GTransform → Mat4
  | .matrix m => m
  | .decomposed t r s =>
      ((Mat4.fromTranslation t).mul (Mat4.fromQuat r)).mul (Mat4.fromScale s)

/-! ### Index buffers (src/model.rs, `enum Indices`) -/

/-- Constant `gl::UNSIGNED_INT` from the gl crate. -/
def UNSIGNED_INT : Nat := 0x1405

/-- Constant `gl::UNSIGNED_SHORT` from the gl crate. -/
def UNSIGNED_SHORT : Nat := 0x1403

/-- Constant `gl::UNSIGNED_BYTE` from the gl crate. -/
def UNSIGNED_BYTE : Nat := 0x1401

/-- Embedding of `enum Indices` (src/model.rs): a tagged variant over `Vec<u32>`,
`Vec<u16>` and `Vec<u8>`; element values are embedded as `Nat`. -/
inductive Indices where
  | u32 (buf : List Nat)
  | u16 (buf : List Nat)
  | u8 (buf : List Nat)
deriving DecidableEq

/-- Embedding of `Indices::size` (src/model.rs): element count times `size_of` of the element type. -/
def Indices.size : Indices → Nat
  | .u32 buf => buf.length * 4
  | .u16 buf => buf.length * 2
  | .u8 buf => buf.length * 1

/-- Embedding of `Indices::len` (src/model.rs): element count of the underlying buffer. -/
def Indices.len : Indices → Nat
  | .u32 buf => buf.length
  | .u16 buf => buf.length
  | .u8 buf => buf.length

/-- Embedding of `Indices::gl_type` (src/model.rs): the OpenGL element-type tag of the variant. -/
def Indices.glType : Indices → Nat
  | .u32 _ => UNSIGNED_INT
  | .u16 _ => UNSIGNED_SHORT
  | .u8 _ => UNSIGNED_BYTE

/-- Byte width of the element type of each `Indices` variant, as the spec states it
(4 for U32, 2 for U16, 1 for U8). -/
def Indices.elemWidth : Indices → Nat
  | .u32 _ => 4
  | .u16 _ => 2
  | .u8 _ => 1

/-! ### OpenGL debug callback (src/main.rs, `gl_debug_callback`) -/

/-- Constant `gl::DEBUG_SEVERITY_NOTIFICATION`. -/
def DEBUG_SEVERITY_NOTIFICATION : Nat := 0x826B

/-- Constant `gl::DEBUG_SEVERITY_LOW`. -/
def DEBUG_SEVERITY_LOW : Nat := 0x9148

/-- Constant `gl::DEBUG_SEVERITY_MEDIUM`. -/
def DEBUG_SEVERITY_MEDIUM : Nat := 0x9147

/-- Constant `gl::DEBUG_SEVERITY_HIGH`. -/
def DEBUG_SEVERITY_HIGH : Nat := 0x9146

/-- Observable behaviour of the debug callback: it either returns silently,
prints the message with a severity prefix, or hits the `unreachable!` arm. -/
inductive DebugAction where
  | suppressed
  | printed (pfx : String) (msg : String)
  | panicked
deriving DecidableEq

/-- Embedding of `gl_debug_callback` (src/main.rs lines 205-230): messages with
id 131185 return early; otherwise the severity selects the printed prefix and
an unknown severity reaches `unreachable!`. -/
def glDebugCallback (id severity : Nat) (msg : String) : DebugAction :=
  if id = 131185 then .suppressed
  else if severity = DEBUG_SEVERITY_NOTIFICATION then .printed "OpenGL - notification: " msg
  else if severity = DEBUG_SEVERITY_LOW then .printed "OpenGL - low: " msg
  else if severity = DEBUG_SEVERITY_MEDIUM then .printed "OpenGL - medium: " msg
  else if severity = DEBUG_SEVERITY_HIGH then .printed "OpenGL - high: " msg
  else .panicked

/-! ### Parsed glTF input (the contract of the `gltf` crate, §6 of the spec) -/

/-- Modelled from the spec: `primitive.rs` is not under src/.  A parsed glTF
primitive is abstracted to whether `Primitive::from_gltf` accepts it
(load-time structural validation, §7 of the spec). -/
structure GltfPrimitive where
  ok : Bool
deriving DecidableEq

/-- Parsed glTF mesh: optional name and its list of primitives
(consumed by `Mesh::from_gltf`, src/model.rs). -/
structure GltfMesh where
  nameOpt : Option String
  primitives : List GltfPrimitive
deriving DecidableEq

/-- One joint entry of a skin, per the spec: `{ node_index, inverse_bind_matrix }`. -/
structure Joint where
  nodeIndex : Nat
  inverseBindMatrix : Mat4
deriving DecidableEq

/-- Modelled from the spec: `joints.rs` is not under src/.  A parsed glTF skin is
its ordered joint data plus the skeleton-root node index, abstracted with an
`ok` flag for whether `Joints::from_gltf` accepts it. -/
structure GltfSkin where
  ok : Bool
  joints : List Joint
  skeletonRootIndex : Nat
deriving DecidableEq

/-- Modelled from the spec: `animation.rs` is not under src/.  A parsed animation
clip is abstracted to its name and whether `Animation::from_gltf` accepts its
keyframe data (strictly-increasing times, §4.2/§7 of the spec). -/
structure GltfAnimation where
  clipName : String
  ok : Bool
deriving DecidableEq

/-- A parsed glTF scene node (tree view of the scene graph as traversed via
`gltf::Node::children`): stable index, optional name, local transform, optional
mesh, optional skin, and child nodes. -/
inductive GltfNode where
  | mk (index : Nat) (nameOpt : Option String) (transform : GTransform)
       (mesh : Option GltfMesh) (skin : Option GltfSkin)
       (children : List GltfNode)

/-- Stable index of a parsed scene node. -/
def GltfNode.index : GltfNode → Nat
  | .mk i _ _ _ _ _ => i

/-- Optional authored name of a parsed scene node. -/
def GltfNode.nameOpt : GltfNode → Option String
  | .mk _ nm _ _ _ _ => nm

/-- Children of a parsed scene node. -/
def GltfNode.children : GltfNode → List GltfNode
  | .mk _ _ _ _ _ cs => cs

/-- A parsed glTF scene: its top-level nodes in source order. -/
structure GltfScene where
  nodes : List GltfNode

/-- A parsed glTF document: its scenes and its animation clips. -/
structure GltfDoc where
  scenes : List GltfScene
  animations : List GltfAnimation

/-! ### The in-memory model (src/model.rs) -/

/-- Result of `Primitive::from_gltf`; its payload (vertex/texture data) is outside
the claims and is not modelled. -/
structure Primitive where
deriving DecidableEq

/-- Embedding of `Mesh` (src/model.rs): primitives plus optional name. -/
structure Mesh where
  primitives : List Primitive
  nameOpt : Option String
deriving DecidableEq

/-- Embedding of `Joints` (spec §3): the ordered joint list and skeleton root index. -/
structure Joints where
  joints : List Joint
  skeletonRootIndex : Nat
deriving DecidableEq

/-- Embedding of `Animations` (playback state container); only the clip names are
relevant to the load-time claims. -/
structure Animations where
  clipNames : List String
deriving DecidableEq

/-- Embedding of `Node` (src/model.rs lines 96-107): index, name, owned children,
optional mesh, local transform matrix, optional joints binding. -/
inductive Node where
  | mk (index : Nat) (name : String) (children : List Node)
       (mesh : Option Mesh) (transform : Mat4) (joints : Option Joints)

/-- Projection to the `index` field of a constructed node. -/
def Node.index : Node → Nat
  | .mk i _ _ _ _ _ => i

/-- Projection to the `name` field of a constructed node. -/
def Node.name : Node → String
  | .mk _ nm _ _ _ _ => nm

/-- Projection to the `children` field of a constructed node. -/
def Node.children : Node → List Node
  | .mk _ _ cs _ _ _ => cs

/-- Projection to the `mesh` field of a constructed node. -/
def Node.mesh : Node → Option Mesh
  | .mk _ _ _ me _ _ => me

/-- Projection to the `transform` field of a constructed node. -/
def Node.transform : Node → Mat4
  | .mk _ _ _ _ tr _ => tr

/-- Projection to the `joints` field of a constructed node. -/
def Node.joints : Node → Option Joints
  | .mk _ _ _ _ _ js => js

/-- Embedding of `Model` (src/model.rs): the synthetic root node, the model name
and the animations (the texture/vertex `bundle` carries no claim-relevant data). -/
structure Model where
  root : Node
  name : String
  animations : Animations

/-- Value of `usize::MAX` on the 64-bit targets the program builds for. -/
def usizeMax : Nat := 2 ^ 64 - 1

/-- Modelled from the spec: `primitive.rs` is not under src/; `Primitive::from_gltf`
performs load-time validation, so it is embedded as succeeding exactly on inputs
the (unmodelled) validation accepts. -/
def Primitive.fromGltf (p : GltfPrimitive) : Except String Primitive :=
  if p.ok then .ok ⟨⟩ else .error "invalid primitive"

/-- The primitive loop of `Mesh::from_gltf` (src/model.rs lines 176-180): build each
primitive in order, propagating the first error. -/
def primsLoop : List GltfPrimitive → Except String (List Primitive)
  | [] => .ok []
  | p :: rest =>
    match Primitive.fromGltf p with
    | .error e => .error e
    | .ok pr =>
      match primsLoop rest with
      | .error e => .error e
      | .ok prs => .ok (pr :: prs)

/-- Embedding of `Mesh::from_gltf` (src/model.rs lines 172-184). -/
def Mesh.fromGltf (m : GltfMesh) : Except String Mesh :=
  match primsLoop m.primitives with
  | .error e => .error e
  | .ok prs => .ok ⟨prs, m.nameOpt⟩

/-- Modelled from the spec: `joints.rs` is not under src/; `Joints::from_gltf` reads
the skin's ordered joint list and skeleton root, validating cross-references at
load time (abstracted by the input's `ok` flag). -/
def Joints.fromGltf (s : GltfSkin) : Except String Joints :=
  if s.ok then .ok ⟨s.joints, s.skeletonRootIndex⟩ else .error "invalid skin"

/-- Modelled from the spec: `animation.rs` is not under src/; `Animation::from_gltf`
builds the playback state from all clips, rejecting malformed keyframe data at
load time (abstracted by each clip's `ok` flag). -/
def Animation.fromGltf (g : GltfDoc) : Except String Animations :=
  if g.animations.all (fun a => a.ok)
  then .ok ⟨g.animations.map (fun a => a.clipName)⟩
  else .error "invalid animation"

/-- The `node.mesh()` branch of `Node::from_gltf` (src/model.rs lines 126-129). -/
def meshFromGltfOpt : Option GltfMesh → Except String (Option Mesh)
  | none => .ok none
  | some m =>
    match Mesh.fromGltf m with
    | .error e => .error e
    | .ok ms => .ok (some ms)

/-- The `node.skin()` branch of `Node::from_gltf` (src/model.rs lines 149-153). -/
def jointsFromGltfOpt : Option GltfSkin → Except String (Option Joints)
  | none => .ok none
  | some s =>
    match Joints.fromGltf s with
    | .error e => .error e
    | .ok js => .ok (some js)

mutual

/-- Embedding of `Node::from_gltf` (src/model.rs lines 110-163).  The `id` counter
(`&mut u32` in the source) is threaded explicitly: the node's fallback name uses
the counter value at entry, each child increments it before recursing, and the
final counter value is returned alongside the node. -/
def Node.fromGltf : GltfNode → Nat → Except String (Node × Nat)
  | .mk index nameOpt transform mesh skin gchildren, id =>
    let nm := nameOpt.getD ("Node-" ++ toString id)
    match childrenFromGltf gchildren id with
    | .error e => .error e
    | .ok (cs, id1) =>
      match meshFromGltfOpt mesh with
      | .error e => .error e
      | .ok ms =>
        match jointsFromGltfOpt skin with
        | .error e => .error e
        | .ok js => .ok (Node.mk index nm cs ms (localTransformOfG transform) js, id1)
termination_by n _ => sizeOf n

/-- The child loop of `Node::from_gltf` (src/model.rs lines 120-124): `*id += 1`
before each recursive call, children collected in order, first error propagated. -/
def childrenFromGltf : List GltfNode → Nat → Except String (List Node × Nat)
  | [], id => .ok ([], id)
  | c :: rest, id =>
    match Node.fromGltf c (id + 1) with
    | .error e => .error e
    | .ok (node, id1) =>
      match childrenFromGltf rest id1 with
      | .error e => .error e
      | .ok (ns, id2) => .ok (node :: ns, id2)
termination_by l _ => sizeOf l

end

/-- The top-level scene-node loop of `Model::from_gltf` (src/model.rs lines 66-72):
`id` starts at 1, and after each top-level node is built the loop performs `id += 1`. -/
def topNodesLoop : List GltfNode → Nat → Except String (List Node × Nat)
  | [], id => .ok ([], id)
  | n :: rest, id =>
    match Node.fromGltf n id with
    | .error e => .error e
    | .ok (node, id1) =>
      match topNodesLoop rest (id1 + 1) with
      | .error e => .error e
      | .ok (ns, id2) => .ok (node :: ns, id2)

/-- Embedding of `Model::from_gltf` (src/model.rs lines 52-91) after parsing: a
scene count different from 1 is rejected with the source's error message (the
single-scene match is exactly the source's `len() != 1` guard followed by
`scenes().next().unwrap()`); then the top-level nodes are built with the counter
starting at 1, the animations are built, and the synthetic root is assembled. -/
def Model.fromGltf (g : GltfDoc) (name : String) : Except String Model :=
  match g.scenes with
  | [scene] =>
    match topNodesLoop scene.nodes 1 with
    | .error e => .error e
    | .ok (nodes, _) =>
      match Animation.fromGltf g with
      | .error e => .error e
      | .ok anims =>
        .ok ⟨Node.mk usizeMax "Root" nodes none Mat4.identity none, name, anims⟩
  | _ => .error "GLTF file contains more than 1 scene"

/-! ### Traversals and validity predicates used to state the claims -/

mutual

/-- Depth-first pre-order listing of a parsed scene subtree (the order in which
`Node::from_gltf` visits nodes). -/
def GltfNode.preorder : GltfNode → List GltfNode
  | .mk i nm tr me sk cs => .mk i nm tr me sk cs :: GltfNode.preorderForest cs
termination_by n => sizeOf n

/-- Pre-order listing of a forest of parsed scene nodes. -/
def GltfNode.preorderForest : List GltfNode → List GltfNode
  | [] => []
  | c :: rest => GltfNode.preorder c ++ GltfNode.preorderForest rest
termination_by l => sizeOf l

end

mutual

/-- Depth-first pre-order listing of a constructed `Node` subtree. -/
def Node.preorder : Node → List Node
  | .mk i nm cs me tr js => .mk i nm cs me tr js :: Node.preorderForest cs
termination_by n => sizeOf n

/-- Pre-order listing of a forest of constructed nodes. -/
def Node.preorderForest : List Node → List Node
  | [] => []
  | c :: rest => Node.preorder c ++ Node.preorderForest rest
termination_by l => sizeOf l

end

/-- Whether `Mesh::from_gltf` accepts an optional mesh: every primitive must pass
validation. -/
def meshOk : Option GltfMesh → Bool
  | none => true
  | some m => m.primitives.all (fun p => p.ok)

/-- Whether `Joints::from_gltf` accepts an optional skin. -/
def skinOk : Option GltfSkin → Bool
  | none => true
  | some s => s.ok

mutual

/-- Load-time validity of a parsed scene subtree: its mesh, its skin and all of
its descendants pass validation. -/
def GltfNode.wellFormed : GltfNode → Bool
  | .mk _ _ _ me sk cs => GltfNode.forestWellFormed cs && meshOk me && skinOk sk
termination_by n => sizeOf n

/-- Load-time validity of a forest of parsed scene nodes. -/
def GltfNode.forestWellFormed : List GltfNode → Bool
  | [] => true
  | c :: rest => GltfNode.wellFormed c && GltfNode.forestWellFormed rest
termination_by l => sizeOf l

end

/-- Follows the spec's words (§7, load-time validation): a model loads successfully
iff the file has exactly one scene, every node in that scene passes mesh and skin
validation, and every animation clip passes validation. -/
def loadOk (g : GltfDoc) : Bool :=
  match g.scenes with
  | [scene] => GltfNode.forestWellFormed scene.nodes && g.animations.all (fun a => a.ok)
  | _ => false

/-- Whether an embedded fallible computation succeeded (Rust `Result::is_ok`). -/
def exceptIsOk {α : Type} : Except String α → Bool
  | .ok _ => true
  | .error _ => false

/-- Modelled from the spec: `joints.rs` is not under src/.  Skin-matrix computation,
§4.5: per joint entry `j` in the skin's fixed ordering,
`skin_matrix[j] = world_matrix[joint_node[j]] × inverse_bind_matrix[j]`, one entry
per joint, in the skin's joint order. -/
def skinMatrices (world : Nat → Mat4) (js : Joints) : List Mat4 :=
  js.joints.map (fun j => (world j.nodeIndex).mul j.inverseBindMatrix)

/-! ### Concrete inputs used by the witnesses and the counterexample -/

/-- A parsed two-node scene subtree: node 5 with one child node 7, neither named. -/
def exampleGNode : GltfNode :=
  .mk 5 none (.matrix Mat4.identity) none none
    [.mk 7 none (.matrix Mat4.identity) none none []]

/-- The node `Node::from_gltf` builds from `exampleGNode` with the counter at 1. -/
def exampleNode : Node :=
  .mk 5 "Node-1" [.mk 7 "Node-2" [] none Mat4.identity none] none Mat4.identity none

/-- A parsed document with a single scene holding `exampleGNode` and no animations. -/
def exampleDoc : GltfDoc := ⟨[⟨[exampleGNode]⟩], []⟩

/-- The model built from `exampleDoc`. -/
def exampleModel : Model :=
  ⟨.mk usizeMax "Root" [exampleNode] none Mat4.identity none, "model", ⟨[]⟩⟩

/-- A parsed document with a single scene that has no top-level nodes. -/
def emptySceneDoc : GltfDoc := ⟨[⟨[]⟩], []⟩

/-- The model built from `emptySceneDoc`: a childless synthetic root. -/
def emptySceneModel : Model :=
  ⟨.mk usizeMax "Root" [] none Mat4.identity none, "model", ⟨[]⟩⟩

/-- A one-joint skin binding joint node 0 with identity inverse-bind matrix. -/
def exampleJoints : Joints := ⟨[⟨0, Mat4.identity⟩], 0⟩

/-- A world-matrix assignment placing every node at the identity. -/
def identityWorld : Nat → Mat4 := fun _ => Mat4.identity

/-! ## Theorems -/

/-! ### Helper lemmas about the loader recursion -/

/-- The primitive loop succeeds exactly when every primitive passes validation. -/
theorem primsLoop_isOk (l : List GltfPrimitive) :
    exceptIsOk (primsLoop l) = l.all (fun p => p.ok) := by
  induction l with
  | nil => rfl
  | cons p rest ih =>
    simp only [primsLoop, Primitive.fromGltf, List.all_cons]
    by_cases hp : p.ok = true
    · simp only [hp, if_true]
      cases hr : primsLoop rest with
      | error e => rw [hr] at ih; simp only [exceptIsOk] at ih ⊢; rw [← ih]; simp
      | ok prs => rw [hr] at ih; simp only [exceptIsOk] at ih ⊢; rw [← ih]; simp
    · simp [hp, exceptIsOk]

/-- Lemma: `Mesh::from_gltf` succeeds exactly when every primitive passes validation. -/
theorem meshFromGltf_isOk (m : GltfMesh) :
    exceptIsOk (Mesh.fromGltf m) = m.primitives.all (fun p => p.ok) := by
  have := primsLoop_isOk m.primitives
  simp only [Mesh.fromGltf]
  cases hr : primsLoop m.primitives with
  | error e => rw [hr] at this; simp only [exceptIsOk] at this ⊢; rw [← this]
  | ok prs => rw [hr] at this; simp only [exceptIsOk] at this ⊢; rw [← this]

/-- The optional-mesh branch succeeds exactly when `meshOk` holds. -/
theorem meshFromGltfOpt_isOk (me : Option GltfMesh) :
    exceptIsOk (meshFromGltfOpt me) = meshOk me := by
  cases me with
  | none => rfl
  | some m =>
    have := meshFromGltf_isOk m
    simp only [meshFromGltfOpt, meshOk]
    cases hr : Mesh.fromGltf m with
    | error e => rw [hr] at this; simp only [exceptIsOk] at this ⊢; rw [← this]
    | ok ms => rw [hr] at this; simp only [exceptIsOk] at this ⊢; rw [← this]

/-- The optional-skin branch succeeds exactly when `skinOk` holds. -/
theorem jointsFromGltfOpt_isOk (sk : Option GltfSkin) :
    exceptIsOk (jointsFromGltfOpt sk) = skinOk sk := by
  cases sk with
  | none => rfl
  | some s =>
    by_cases hs : s.ok = true <;>
      simp [jointsFromGltfOpt, Joints.fromGltf, skinOk, hs, exceptIsOk]

mutual

/-- Lemma: `Node::from_gltf` succeeds exactly when the subtree passes load-time validation. -/
theorem fromGltf_isOk (n : GltfNode) (id : Nat) :
    exceptIsOk (Node.fromGltf n id) = n.wellFormed := by
  cases n with
  | mk i nm tr me sk cs =>
    have hc := childrenFromGltf_isOk cs id
    simp only [Node.fromGltf, GltfNode.wellFormed]
    cases hcc : childrenFromGltf cs id with
    | error e =>
      rw [hcc] at hc; simp only [exceptIsOk] at hc ⊢; rw [← hc]; simp
    | ok pr =>
      obtain ⟨cs2, id1⟩ := pr
      rw [hcc] at hc; simp only [exceptIsOk] at hc
      have hm := meshFromGltfOpt_isOk me
      cases hmm : meshFromGltfOpt me with
      | error e =>
        rw [hmm] at hm; simp only [exceptIsOk] at hm ⊢; rw [← hm, ← hc]; simp
      | ok ms =>
        rw [hmm] at hm; simp only [exceptIsOk] at hm
        have hj := jointsFromGltfOpt_isOk sk
        cases hjj : jointsFromGltfOpt sk with
        | error e =>
          rw [hjj] at hj; simp only [exceptIsOk] at hj ⊢; rw [← hm, ← hj, ← hc]; simp
        | ok js2 =>
          rw [hjj] at hj; simp only [exceptIsOk] at hj ⊢; rw [← hm, ← hj, ← hc]; simp [exceptIsOk]
termination_by sizeOf n

/-- The child loop succeeds exactly when every child subtree passes validation. -/
theorem childrenFromGltf_isOk (l : List GltfNode) (id : Nat) :
    exceptIsOk (childrenFromGltf l id) = GltfNode.forestWellFormed l := by
  cases l with
  | nil => simp [childrenFromGltf, GltfNode.forestWellFormed, exceptIsOk]
  | cons c rest =>
    simp only [childrenFromGltf, GltfNode.forestWellFormed]
    split
    · rename_i e heq
      have h1 := fromGltf_isOk c (id + 1)
      rw [heq] at h1
      simp only [exceptIsOk] at h1 ⊢
      rw [← h1]; simp
    · rename_i nc id1 heq
      have h1 := fromGltf_isOk c (id + 1)
      rw [heq] at h1
      simp only [exceptIsOk] at h1
      have h2 := childrenFromGltf_isOk rest id1
      split
      · rename_i e2 heq2
        rw [heq2] at h2
        simp only [exceptIsOk] at h2 ⊢
        rw [← h1, ← h2]; simp
      · rename_i ns2 id2 heq2
        rw [heq2] at h2
        simp only [exceptIsOk] at h2 ⊢
        rw [← h1, ← h2]; simp
termination_by sizeOf l

end

mutual

/-- Full characterisation of a successful `Node::from_gltf` call: the returned
counter advance, the preserved source index at the root and throughout the
subtree, and every node's display name (authored name, or `Node-<id>` with the
counter value at the visit, the counter numbering the subtree in pre-order). -/
theorem fromGltf_ok_spec (n : GltfNode) (id : Nat) (node : Node) (idEnd : Nat)
    (h : Node.fromGltf n id = .ok (node, idEnd)) :
    idEnd + 1 = id + n.preorder.length ∧
    node.index = n.index ∧
    node.preorder.map Node.index = n.preorder.map GltfNode.index ∧
    node.preorder.map Node.name =
      (n.preorder.zip (List.range' id n.preorder.length)).map
        (fun p => p.1.nameOpt.getD ("Node-" ++ toString p.2)) := by
  cases n with
  | mk i nm tr me sk cs =>
    simp only [Node.fromGltf] at h
    cases hc : childrenFromGltf cs id with
    | error e => rw [hc] at h; simp at h
    | ok pr =>
      obtain ⟨cs2, id1⟩ := pr
      rw [hc] at h
      cases hm : meshFromGltfOpt me with
      | error e => rw [hm] at h; simp at h
      | ok ms =>
        rw [hm] at h
        cases hj : jointsFromGltfOpt sk with
        | error e => rw [hj] at h; simp at h
        | ok js2 =>
          rw [hj] at h
          simp only [Except.ok.injEq, Prod.mk.injEq] at h
          obtain ⟨hnode, hid⟩ := h
          subst hnode
          subst hid
          obtain ⟨ih1, ih2, ih3⟩ := childrenFromGltf_ok_spec cs id cs2 id1 hc
          refine ⟨?_, rfl, ?_, ?_⟩
          · simp only [GltfNode.preorder, List.length_cons]; omega
          · simp only [Node.preorder, GltfNode.preorder, List.map_cons, Node.index,
                       GltfNode.index]
            exact congrArg (List.cons i) ih2
          · simp only [Node.preorder, GltfNode.preorder, List.map_cons, List.length_cons,
                       List.range'_succ, List.zip_cons_cons, Node.name, GltfNode.nameOpt]
            exact congrArg (List.cons _) ih3
termination_by sizeOf n

/-- Full characterisation of a successful child loop: the counter ends where the
forest's pre-order size puts it, indices are preserved, and names follow the
pre-order counter starting one past the parent's id. -/
theorem childrenFromGltf_ok_spec (l : List GltfNode) (id : Nat) (ns : List Node) (idEnd : Nat)
    (h : childrenFromGltf l id = .ok (ns, idEnd)) :
    idEnd = id + (GltfNode.preorderForest l).length ∧
    (Node.preorderForest ns).map Node.index =
      (GltfNode.preorderForest l).map GltfNode.index ∧
    (Node.preorderForest ns).map Node.name =
      ((GltfNode.preorderForest l).zip
        (List.range' (id + 1) (GltfNode.preorderForest l).length)).map
        (fun p => p.1.nameOpt.getD ("Node-" ++ toString p.2)) := by
  cases l with
  | nil =>
    simp only [childrenFromGltf, Except.ok.injEq, Prod.mk.injEq] at h
    obtain ⟨hns, hid⟩ := h
    subst hns
    subst hid
    simp [GltfNode.preorderForest, Node.preorderForest]
  | cons c rest =>
    simp only [childrenFromGltf] at h
    split at h
    · simp at h
    · rename_i nc id1 h1
      split at h
      · simp at h
      · rename_i ns2 id2 h2
        simp only [Except.ok.injEq, Prod.mk.injEq] at h
        obtain ⟨hns, hid⟩ := h
        subst hns
        subst hid
        obtain ⟨s1a, s1idx, s1map, s1names⟩ := fromGltf_ok_spec c (id + 1) nc id1 h1
        obtain ⟨s2a, s2b, s2c⟩ := childrenFromGltf_ok_spec rest id1 ns2 id2 h2
        have hlen : id1 = id + c.preorder.length := by omega
        refine ⟨?_, ?_, ?_⟩
        · simp only [GltfNode.preorderForest, List.length_append]; omega
        · simp only [Node.preorderForest, GltfNode.preorderForest, List.map_append]
          rw [s1map, s2b]
        · simp only [Node.preorderForest, GltfNode.preorderForest, List.map_append,
                     List.length_append]
          rw [Nat.add_comm c.preorder.length (GltfNode.preorderForest rest).length,
              ← List.range'_append_1 (id + 1) c.preorder.length,
              List.zip_append (by simp), List.map_append, s1names, s2c]
          have : id + 1 + c.preorder.length = id1 + 1 := by omega
          rw [this]
termination_by sizeOf l

end

/-- The top-level scene-node loop succeeds exactly when every top-level subtree
passes load-time validation. -/
theorem topNodesLoop_isOk (l : List GltfNode) (id : Nat) :
    exceptIsOk (topNodesLoop l id) = GltfNode.forestWellFormed l := by
  induction l generalizing id with
  | nil => simp [topNodesLoop, GltfNode.forestWellFormed, exceptIsOk]
  | cons c rest ih =>
    simp only [topNodesLoop, GltfNode.forestWellFormed]
    split
    · rename_i e heq
      have h1 := fromGltf_isOk c id
      rw [heq] at h1
      simp only [exceptIsOk] at h1 ⊢
      rw [← h1]; simp
    · rename_i nc id1 heq
      have h1 := fromGltf_isOk c id
      rw [heq] at h1
      simp only [exceptIsOk] at h1
      have h2 := ih (id1 + 1)
      split
      · rename_i e2 heq2
        rw [heq2] at h2
        simp only [exceptIsOk] at h2 ⊢
        rw [← h1, ← h2]; simp
      · rename_i ns2 id2 heq2
        rw [heq2] at h2
        simp only [exceptIsOk] at h2 ⊢
        rw [← h1, ← h2]; simp

/-- A successful top-level loop returns one constructed node per top-level scene
node, in source order, each carrying its source node's index. -/
theorem topNodesLoop_ok_spec (l : List GltfNode) (id : Nat) (ns : List Node) (idEnd : Nat)
    (h : topNodesLoop l id = .ok (ns, idEnd)) :
    ns.length = l.length ∧ ns.map Node.index = l.map GltfNode.index := by
  induction l generalizing id ns idEnd with
  | nil =>
    simp only [topNodesLoop, Except.ok.injEq, Prod.mk.injEq] at h
    obtain ⟨hns, _⟩ := h
    subst hns
    exact ⟨rfl, rfl⟩
  | cons c rest ih =>
    simp only [topNodesLoop] at h
    split at h
    · simp at h
    · rename_i nc id1 h1
      split at h
      · simp at h
      · rename_i ns2 id2 h2
        simp only [Except.ok.injEq, Prod.mk.injEq] at h
        obtain ⟨hns, _⟩ := h
        subst hns
        obtain ⟨ihl, ihm⟩ := ih (id1 + 1) ns2 id2 h2
        refine ⟨by simp [ihl], ?_⟩
        simp only [List.map_cons]
        rw [(fromGltf_ok_spec c id nc id1 h1).2.1, ihm]

/-- C1: when a node's local transform is given in decomposed form, the stored 4×4
local matrix equals Translation × Rotation × Scale in that multiplication order;
equivalently (and pinning the order down uniquely), its first three columns are
the columns of the rotation matrix scaled by the matching scale component, and
its fourth column is the translation. -/
theorem c1_local_matrix_is_trs (t : Vec3) (r : Quat) (s : Vec3) :
    localTransformOfG (.decomposed t r s) =
      (Mat4.fromTranslation t).mul ((Mat4.fromQuat r).mul (Mat4.fromScale s)) ∧
    localTransformOfG (.decomposed t r s) =
      ⟨Vec4.smul s.x (Mat4.fromQuat r).xAxis, Vec4.smul s.y (Mat4.fromQuat r).yAxis,
       Vec4.smul s.z (Mat4.fromQuat r).zAxis, ⟨t.x, t.y, t.z, 1⟩⟩ := by
  constructor <;>
  · simp only [localTransformOfG, Mat4.mul, Mat4.mulVec4, Vec4.smul, Vec4.add,
               Mat4.fromTranslation, Mat4.fromQuat, Mat4.fromScale,
               Mat4.mk.injEq, Vec4.mk.injEq]
    norm_num

/-- C2: for every skin and every world-matrix assignment, the skin-matrix array
has exactly one entry per joint in the skin's fixed order and entry `k` is the
joint's world matrix times its inverse-bind matrix; consequently, when every
joint's world matrix equals its bind-pose world matrix (whose product with the
supplied inverse-bind matrix is the identity), every entry is the identity. -/
theorem c2_skin_matrix_array (world : Nat → Mat4) (js : Joints) :
    (skinMatrices world js).length = js.joints.length ∧
    (∀ (k : Nat) (j : Joint), js.joints[k]? = some j →
      (skinMatrices world js)[k]? = some ((world j.nodeIndex).mul j.inverseBindMatrix)) ∧
    (∀ bindWorld : Nat → Mat4,
      (∀ j ∈ js.joints, world j.nodeIndex = bindWorld j.nodeIndex ∧
        (bindWorld j.nodeIndex).mul j.inverseBindMatrix = Mat4.identity) →
      ∀ m ∈ skinMatrices world js, m = Mat4.identity) := by
  refine ⟨by simp [skinMatrices], fun k j hk => by simp [skinMatrices, hk],
          fun bindWorld hbind m hm => ?_⟩
  simp only [skinMatrices, List.mem_map] at hm
  obtain ⟨j, hj, rfl⟩ := hm
  rw [(hbind j hj).1, (hbind j hj).2]

/-- Witness for C2 at a concrete one-joint skin with an identity world assignment,
exercising the length, the per-entry formula, and the bind-pose identity
consequence. -/
theorem c2_skin_matrix_array_witness :
    (skinMatrices identityWorld exampleJoints).length = 1 ∧
    (skinMatrices identityWorld exampleJoints)[0]? =
      some ((identityWorld 0).mul Mat4.identity) ∧
    Mat4.identity.mul Mat4.identity = Mat4.identity :=
  ⟨(c2_skin_matrix_array identityWorld exampleJoints).1,
   (c2_skin_matrix_array identityWorld exampleJoints).2.1 0 ⟨0, Mat4.identity⟩ rfl,
   (c2_skin_matrix_array identityWorld exampleJoints).2.2 identityWorld
     (by simp [exampleJoints, identityWorld, Mat4.mul, Mat4.mulVec4, Vec4.smul,
               Vec4.add, Mat4.identity])
     (Mat4.identity.mul Mat4.identity)
     (by simp [skinMatrices, exampleJoints, identityWorld])⟩

/-- C6: the node hierarchy is a finite tree: the pre-order traversal of a node
visits exactly one node more than the traversals of its child forest, and every
child's subtree traversal is strictly shorter than its parent's, so recursive
traversal from the root visits finitely many nodes and terminates. -/
theorem c6_tree_finite (node : Node) :
    node.preorder.length = (Node.preorderForest node.children).length + 1 ∧
    ∀ c ∈ node.children, c.preorder.length < node.preorder.length := by
  have hmem : ∀ (l : List Node), ∀ c ∈ l, c.preorder.length ≤ (Node.preorderForest l).length := by
    intro l
    induction l with
    | nil => intro c hc; cases hc
    | cons a rest ih =>
      intro c hc
      simp only [Node.preorderForest, List.length_append]
      rw [List.mem_cons] at hc
      rcases hc with rfl | hc
      · exact Nat.le_add_right _ _
      · exact le_trans (ih c hc) (Nat.le_add_left _ _)
  cases node with
  | mk i nm cs me tr js =>
    constructor
    · simp [Node.preorder, Node.children]
    · intro c hc
      have := hmem cs c (by simpa [Node.children] using hc)
      simp only [Node.preorder, List.length_cons]
      omega

/-- Witness for C6 at the concrete two-node example tree. -/
theorem c6_tree_finite_witness :
    (Node.mk 7 "Node-2" [] none Mat4.identity none).preorder.length <
      exampleNode.preorder.length :=
  (c6_tree_finite exampleNode).2 (Node.mk 7 "Node-2" [] none Mat4.identity none)
    (by simp [exampleNode, Node.children])

/-- C7: every `Indices` value satisfies the tagged-variant index-buffer contract:
its byte size is its element count times the element byte width of its variant
(4, 2 or 1), and its OpenGL type tag matches its variant. -/
theorem c7_indices_contract (ix : Indices) :
    ix.size = ix.len * ix.elemWidth ∧
    ix.glType = (match ix with
      | .u32 _ => UNSIGNED_INT
      | .u16 _ => UNSIGNED_SHORT
      | .u8 _ => UNSIGNED_BYTE) := by
  cases ix <;> simp [Indices.size, Indices.len, Indices.glType, Indices.elemWidth]

/-- C8: the debug callback suppresses exactly the driver message id 131185 (it
returns silently on that id and on no other), and any other id with one of the
four known severities is printed with the matching severity prefix. -/
theorem c8_debug_callback (id severity : Nat) (msg : String) :
    (glDebugCallback id severity msg = .suppressed ↔ id = 131185) ∧
    (id ≠ 131185 →
      (severity = DEBUG_SEVERITY_NOTIFICATION →
        glDebugCallback id severity msg = .printed "OpenGL - notification: " msg) ∧
      (severity = DEBUG_SEVERITY_LOW →
        glDebugCallback id severity msg = .printed "OpenGL - low: " msg) ∧
      (severity = DEBUG_SEVERITY_MEDIUM →
        glDebugCallback id severity msg = .printed "OpenGL - medium: " msg) ∧
      (severity = DEBUG_SEVERITY_HIGH →
        glDebugCallback id severity msg = .printed "OpenGL - high: " msg)) := by
  unfold glDebugCallback
  unfold DEBUG_SEVERITY_NOTIFICATION DEBUG_SEVERITY_LOW DEBUG_SEVERITY_MEDIUM DEBUG_SEVERITY_HIGH
  split_ifs <;> simp_all

/-- Witness for C8: a notification-severity message with a non-suppressed id is
printed with the notification prefix. -/
theorem c8_debug_callback_witness :
    glDebugCallback 1 DEBUG_SEVERITY_NOTIFICATION "buffer info" =
      .printed "OpenGL - notification: " "buffer info" :=
  ((c8_debug_callback 1 DEBUG_SEVERITY_NOTIFICATION "buffer info").2 (by decide)).1 rfl

/-- C9: `Model::from_gltf` rejects every parsed file whose scene count differs
from one — with the source's (inaccurate for the zero-scene case) error message —
and a successful load implies the file had exactly one scene. -/
theorem c9_single_scene_guard (g : GltfDoc) (nm : String) :
    (g.scenes.length ≠ 1 →
      Model.fromGltf g nm = .error "GLTF file contains more than 1 scene") ∧
    (exceptIsOk (Model.fromGltf g nm) = true → g.scenes.length = 1) := by
  obtain ⟨scenes, anims⟩ := g
  match scenes with
  | [] => exact ⟨fun _ => rfl, by intro h; simp [Model.fromGltf, exceptIsOk] at h⟩
  | [s] => exact ⟨fun h => absurd rfl h, fun _ => rfl⟩
  | a :: b :: rest =>
    exact ⟨fun _ => rfl, by intro h; simp [Model.fromGltf, exceptIsOk] at h⟩

/-- Witness for C9 at a parsed file with zero scenes. -/
theorem c9_single_scene_guard_witness :
    Model.fromGltf ⟨[], []⟩ "model" = .error "GLTF file contains more than 1 scene" :=
  (c9_single_scene_guard ⟨[], []⟩ "model").1 (by decide)

/-- C4: model loading is all-or-nothing: `Model::from_gltf` succeeds exactly when
the scene count is one and every node subtree, every mesh primitive and every
animation clip passes load-time validation; any failure while constructing a
child node, a mesh or the animations propagates to an error result (and, the
result being an `Except`, no `Model` value is produced alongside an error). -/
theorem c4_all_or_nothing (g : GltfDoc) (nm : String) :
    exceptIsOk (Model.fromGltf g nm) = loadOk g := by
  obtain ⟨scenes, anims⟩ := g
  match scenes with
  | [] => rfl
  | a :: b :: rest => rfl
  | [s] =>
    simp only [Model.fromGltf, loadOk]
    split
    · rename_i e heq
      have ht := topNodesLoop_isOk s.nodes 1
      rw [heq] at ht
      simp only [exceptIsOk] at ht ⊢
      rw [← ht]; simp
    · rename_i ns idE heq
      have ht := topNodesLoop_isOk s.nodes 1
      rw [heq] at ht
      simp only [exceptIsOk] at ht
      simp only [Animation.fromGltf]
      by_cases ha : anims.all (fun a => a.ok) = true <;>
        simp [ha, exceptIsOk, ← ht]

/-- C5: every node constructed from a source scene node carries that source
node's stable index, at the root of the constructed subtree and at every node
of the subtree (in matching pre-order positions). -/
theorem c5_index_preserved (n : GltfNode) (id : Nat) (node : Node) (idEnd : Nat)
    (h : Node.fromGltf n id = .ok (node, idEnd)) :
    node.index = n.index ∧
    node.preorder.map Node.index = n.preorder.map GltfNode.index :=
  ⟨(fromGltf_ok_spec n id node idEnd h).2.1,
   (fromGltf_ok_spec n id node idEnd h).2.2.1⟩

/-- Witness for C5 at the concrete two-node example subtree. -/
theorem c5_index_preserved_witness :
    exampleNode.index = exampleGNode.index ∧
    exampleNode.preorder.map Node.index = exampleGNode.preorder.map GltfNode.index :=
  c5_index_preserved exampleGNode 1 exampleNode 2
    (by simp [exampleGNode, exampleNode, Node.fromGltf, childrenFromGltf, meshFromGltfOpt,
              jointsFromGltfOpt, localTransformOfG]
        decide)

/-- C10: every constructed node's display name is the authored name when present,
and otherwise `Node-<id>` where `<id>` is the pre-order counter value at the
moment the node is visited: the node entered with counter value `id` heads a
subtree whose nodes, in pre-order, receive the consecutive counter values
`id, id+1, ...`. -/
theorem c10_display_names (n : GltfNode) (id : Nat) (node : Node) (idEnd : Nat)
    (h : Node.fromGltf n id = .ok (node, idEnd)) :
    node.preorder.map Node.name =
      (n.preorder.zip (List.range' id n.preorder.length)).map
        (fun p => p.1.nameOpt.getD ("Node-" ++ toString p.2)) :=
  (fromGltf_ok_spec n id node idEnd h).2.2.2

/-- Witness for C10 at the concrete two-node example subtree (both nodes unnamed,
so both get counter-derived names). -/
theorem c10_display_names_witness :
    exampleNode.preorder.map Node.name =
      (exampleGNode.preorder.zip (List.range' 1 exampleGNode.preorder.length)).map
        (fun p => p.1.nameOpt.getD ("Node-" ++ toString p.2)) :=
  c10_display_names exampleGNode 1 exampleNode 2
    (by simp [exampleGNode, exampleNode, Node.fromGltf, childrenFromGltf, meshFromGltfOpt,
              jointsFromGltfOpt, localTransformOfG]
        decide)

/-- C3 (amended): for every model that loads successfully, the returned root node
is synthetic: its index is the sentinel `usize::MAX`, its local transform is the
identity matrix, it has no mesh and no joints binding, and its children are
exactly the nodes built from the single scene's top-level nodes in source order
(one child per top-level node, carrying its index); the scene's top-level node
list may be empty, in which case the root has no children. -/
theorem c3_synthetic_root (g : GltfDoc) (nm : String) (m : Model)
    (h : Model.fromGltf g nm = .ok m) :
    m.root.index = usizeMax ∧
    m.root.transform = Mat4.identity ∧
    m.root.mesh = none ∧
    m.root.joints = none ∧
    ∃ scene, g.scenes = [scene] ∧
      m.root.children.length = scene.nodes.length ∧
      m.root.children.map Node.index = scene.nodes.map GltfNode.index := by
  obtain ⟨scenes, anims⟩ := g
  match scenes with
  | [] => simp [Model.fromGltf] at h
  | a :: b :: rest => simp [Model.fromGltf] at h
  | [s] =>
    simp only [Model.fromGltf] at h
    split at h
    · simp at h
    · rename_i ns idE ht
      split at h
      · simp at h
      · rename_i anims2 ha
        simp only [Except.ok.injEq] at h
        subst h
        obtain ⟨hl, hm⟩ := topNodesLoop_ok_spec s.nodes 1 ns idE ht
        exact ⟨rfl, rfl, rfl, rfl, s, rfl, hl, hm⟩

/-- Counterexample to C3 as stated: a parsed file with one scene and zero
top-level nodes loads successfully, and the synthetic root then has no children,
contradicting the claim that there is at least one. -/
theorem c3_counterexample :
    Model.fromGltf emptySceneDoc "model" = .ok emptySceneModel ∧
    emptySceneModel.root.children.length = 0 :=
  ⟨rfl, rfl⟩

/-- Witness for C3 (amended) at a concrete one-scene, one-node document. -/
theorem c3_synthetic_root_witness :
    exampleModel.root.index = usizeMax ∧
    exampleModel.root.transform = Mat4.identity ∧
    exampleModel.root.mesh = none ∧
    exampleModel.root.joints = none := by
  have h : Model.fromGltf exampleDoc "model" = .ok exampleModel := by
    simp [exampleDoc, exampleModel, exampleGNode, exampleNode, Model.fromGltf, topNodesLoop,
          Node.fromGltf, childrenFromGltf, meshFromGltfOpt, jointsFromGltfOpt,
          localTransformOfG, Animation.fromGltf]
    decide
  obtain ⟨h1, h2, h3, h4, _⟩ := c3_synthetic_root exampleDoc "model" exampleModel h
  exact ⟨h1, h2, h3, h4⟩

end Leoric
